import Mathlib

/-!
Verification of the resumable, partitioned ingestion pipeline of the
Air-Quality-Prediction-Platform repository.  The definitions below are a
shallow embedding of `air-lambda/la-hourly-sync.js` (the hourly sync Lambda
handler) and `air-lambda/fixed-index.js` (the station matcher).  JavaScript
values that matter are modelled explicitly: a duck-typed payload field is
`JVal` (undefined / null / number), machine time is naturals counting
milliseconds, and each `Math.random()` draw is a rational parameter subject
to `0 ≤ r < 1`.
-/

namespace AirSync

/-- A duck-typed JavaScript value as it appears in a payload field:
`undefined` (field absent), JSON `null`, or a number (modelled as `ℚ`). -/
inductive JVal where
  | undefined : JVal
  | null : JVal
  | num : ℚ → JVal
deriving DecidableEq

/-- A wall-clock instant split into its hour index (hours since the epoch,
which encodes the date and the hour of day) and the sub-hour fields a
JavaScript `Date` exposes.  `setMinutes(0, 0, 0)` zeroes the last three. -/
structure ClockTime where
  hourIndex : ℕ
  minute : ℕ
  second : ℕ
  ms : ℕ
deriving DecidableEq

/-- `currentTime.setMinutes(0, 0, 0)` from the handler (la-hourly-sync.js
lines 309-310): minutes, seconds and milliseconds are zeroed, the date and
the hour are kept. -/
def alignHour (t : ClockTime) : ClockTime :=
  { t with minute := 0, second := 0, ms := 0 }

/-- Milliseconds since the epoch of a clock instant. -/
def ClockTime.epochMs (t : ClockTime) : ℕ :=
  t.hourIndex * 3600000 + t.minute * 60000 + t.second * 1000 + t.ms

/-- JavaScript `Array.prototype.slice(start, end)` on a list, for the
non-negative in-range indices the handler uses: the elements with index
in `[start, end)`. -/
def jsSlice (l : List α) (s e : ℕ) : List α :=
  (l.take e).drop s

/-- Outcome of the paging logic of one handler run (la-hourly-sync.js lines
301-327) together with the checkpoint offset computation (line 377). -/
structure PlanResult (α : Type) where
  slice : List α
  remaining : ℕ
  isComplete : Bool
  nextOffset : ℕ
deriving DecidableEq

/-- The Partition Planner, read off the handler:
`endOffset = Math.min(offset + maxPerRun, totalStations)`,
`slice = allStations.slice(offset, endOffset)`,
`remaining = totalStations - endOffset`,
`isComplete = endOffset >= totalStations`, and the checkpoint field
`nextOffset = endOffset >= totalStations ? 0 : endOffset`. -/
def plan (sites : List α) (offset maxPerRun : ℕ) : PlanResult α :=
  let totalStations := sites.length
  let endOffset := min (offset + maxPerRun) totalStations
  { slice := jsSlice sites offset endOffset
    remaining := totalStations - endOffset
    isComplete := decide (totalStations ≤ endOffset)
    nextOffset := if totalStations ≤ endOffset then 0 else endOffset }

/-- One full cycle of the Partition Planner: starting from `offset`,
repeatedly take the planned slice and continue from the returned
`nextOffset` until a run reports completion (the checkpoint then wraps
to 0).  `fuel` bounds the number of runs; `T` runs always suffice when
the window is at least 1. -/
def cycleSlices (T W : ℕ) : ℕ → ℕ → List (List ℕ)
  | 0, _ => []
  | fuel + 1, offset =>
    if (plan (List.range T) offset W).isComplete then
      [(plan (List.range T) offset W).slice]
    else
      (plan (List.range T) offset W).slice ::
        cycleSlices T W fuel (plan (List.range T) offset W).nextOffset

/-- Result of one `fetchWithRetry` call: the value returned or the error
thrown, the number of fetch attempts actually made, and the backoff delays
(in milliseconds) waited before retries, in order. -/
structure FetchTrace (β : Type) where
  result : Except (Option String) β
  attempts : ℕ
  delays : List ℕ

/-- The retry loop of `fetchWithRetry` (la-hourly-sync.js lines 16-40).
`responses attempt` is the outcome of the `fetch` call made on 0-based
attempt number `attempt`: `.ok body` for a 2xx response with parsed JSON
body, `.error msg` for a network failure or a non-2xx status.  Before every
attempt after the first the code waits `2000 * 2 ^ attempt` ms.  `fuel` is
the number of attempts still allowed; `lastError` is `none` while no
attempt has failed yet (`let lastError;`). -/
def fetchRetryGo (responses : ℕ → Except String β) :
    ℕ → ℕ → Option String → List ℕ → FetchTrace β
  | 0, attempt, lastError, delays => ⟨.error lastError, attempt, delays⟩
  | fuel + 1, attempt, _, delays =>
    let delays2 := if 0 < attempt then delays ++ [2000 * 2 ^ attempt] else delays
    match responses attempt with
    | .ok body => ⟨.ok body, attempt + 1, delays2⟩
    | .error e => fetchRetryGo responses fuel (attempt + 1) (some e) delays2

/-- `fetchWithRetry(url, options, maxRetries)`: run the loop from attempt 0
with no recorded error.  The call sites use the default `maxRetries = 3`. -/
def fetchWithRetry (responses : ℕ → Except String β) (maxRetries : ℕ) : FetchTrace β :=
  fetchRetryGo responses maxRetries 0 none []

/-- `generateSimulatedValue` (lines 84-102): `Math.random() * span + base`
chosen by parameter name; `r` is the `Math.random()` draw. -/
def generateSimulatedValue (paramName : String) (r : ℚ) : ℚ :=
  if paramName = "pm25" then r * 40 + 5
  else if paramName = "pm10" then r * 50 + 10
  else if paramName = "o3" then r * 60 + 10
  else if paramName = "no2" then r * 50 + 5
  else if paramName = "so2" then r * 20 + 1
  else if paramName = "co" then r * 5 + 1 / 5
  else r * 30 + 5

/-- The parameter descriptor snapshot a sensor carries. -/
structure Param where
  id : ℕ
  name : String
  units : String
  displayName : String
deriving DecidableEq

/-- A document of the `sensors` collection.  `key` models the Mongo `_id`;
`value` / `lastUpdated` / `isSimulated` are the cached last-known value. -/
structure SensorRow where
  key : ℕ
  station : ℕ
  id : ℕ
  openaqSensorId : Option ℕ
  param : Param
  value : JVal
  lastUpdated : ℕ
  isSimulated : Bool
deriving DecidableEq

/-- A document of the `hourlymeasurements` collection. -/
structure MeasRow where
  station : ℕ
  param : Param
  value : JVal
  isSimulated : Bool
  timestamp : ℕ
  createdAt : ℕ
deriving DecidableEq

/-- A document of the `stations` collection as the sync touches it.  `key`
models the Mongo `_id`; `id` is the external OpenAQ id (absent when the
JavaScript field is undefined or null). -/
structure StationDoc where
  key : ℕ
  id : Option ℕ
  lastDataUpdate : Option ℕ
deriving DecidableEq

/-- The backing store state the sync reads and writes. -/
structure DB where
  measurements : List MeasRow
  sensors : List SensorRow
  stations : List StationDoc
deriving DecidableEq

/-- Whether a measurement document matches the writer's uniqueness key
(site, parameter name, aligned hourly timestamp). -/
def measKeyMatches (stKey : ℕ) (pname : String) (ts : ℕ) (m : MeasRow) : Bool :=
  m.station == stKey && m.param.name == pname && m.timestamp == ts

/-- The `findOne` existence check of the writer (lines 164-168). -/
def findExistingRecord (ms : List MeasRow) (stKey : ℕ) (pname : String) (ts : ℕ) :
    Option MeasRow :=
  ms.find? (measKeyMatches stKey pname ts)

/-- How many documents match the writer's uniqueness key. -/
def measKeyCount (ms : List MeasRow) (stKey : ℕ) (pname : String) (ts : ℕ) : ℕ :=
  ms.countP (measKeyMatches stKey pname ts)

/-- Mongo `updateOne`: rewrite the first document matching the filter,
leave everything else unchanged. -/
def updateFirst (p : α → Bool) (f : α → α) : List α → List α
  | [] => []
  | a :: rest => if p a then f a :: rest else a :: updateFirst p f rest

/-- The Idempotent Writer: the per-sensor block of `processStation` guarded
by `value !== null` (lines 160-201).  An existence check on the key
(station, parameter name, timestamp); `insertOne` only when no record
exists; then `updateOne` of the sensor's cached value in either case.
Returns the new database state and whether a Measurement was created.
`now` is the wall clock used for `createdAt` / `lastUpdated`. -/
def writeMeasurement (db : DB) (stKey : ℕ) (sensor : SensorRow) (value : JVal)
    (isSimulated : Bool) (ts now : ℕ) : DB × Bool :=
  let existing := findExistingRecord db.measurements stKey sensor.param.name ts
  let newRow : MeasRow :=
    { station := stKey, param := sensor.param, value := value,
      isSimulated := isSimulated, timestamp := ts, createdAt := now }
  let inserted :=
    match existing with
    | none => (db.measurements ++ [newRow], true)
    | some _ => (db.measurements, false)
  let sensors2 := updateFirst (fun s => s.key == sensor.key)
    (fun s => { s with value := value, lastUpdated := now, isSimulated := isSimulated })
    db.sensors
  ({ db with measurements := inserted.1, sensors := sensors2 }, inserted.2)

/-- One entry of the upstream `latest` payload (`data.results`): the
correlating `sensorsId` and the duck-typed `value` field. -/
structure UpEntry where
  sensorsId : ℕ
  value : JVal
deriving DecidableEq

/-- The `sensorDataMap` built by `for (const measurement of latestData)
sensorDataMap[measurement.sensorsId] = measurement` followed by a lookup:
a later entry with the same `sensorsId` overwrites an earlier one, so the
lookup returns the last matching entry. -/
def sensorDataLookup (latestData : List UpEntry) (sid : ℕ) : Option UpEntry :=
  latestData.foldl (fun acc m => if m.sensorsId == sid then some m else acc) none

/-- `sensor.openaqSensorId || sensor.id` (line 146) with JavaScript
truthiness: an absent or zero `openaqSensorId` falls through to
`sensor.id`. -/
def effectiveSensorId (sensor : SensorRow) : ℕ :=
  match sensor.openaqSensorId with
  | some n => if n == 0 then sensor.id else n
  | none => sensor.id

/-- Value resolution of the per-sensor loop (lines 141-158): start from
`value = null`; use the real payload value when the map entry exists and
its `value` field is not `undefined`; otherwise set the simulated flag and
draw from `generateSimulatedValue`.  Returns (value, isSimulated). -/
def resolveValue (paramName : String) (entry : Option UpEntry) (r : ℚ) : JVal × Bool :=
  match entry with
  | some m =>
    if m.value ≠ JVal.undefined then (m.value, false)
    else (JVal.num (generateSimulatedValue paramName r), true)
  | none => (JVal.num (generateSimulatedValue paramName r), true)

/-- One iteration of the per-sensor loop of `processStation` (lines
140-202): resolve the value and, when it is not null, run the Idempotent
Writer.  Returns the new database state, whether the sensor was processed
(counted in `sensorsProcessed`), and whether a Measurement was created. -/
def processSensor (db : DB) (stKey : ℕ) (latestData : List UpEntry) (sensor : SensorRow)
    (r : ℚ) (ts now : ℕ) : DB × Bool × Bool :=
  let entry := sensorDataLookup latestData (effectiveSensorId sensor)
  let rv := resolveValue sensor.param.name entry r
  if rv.1 ≠ JVal.null then
    let w := writeMeasurement db stKey sensor rv.1 rv.2 ts now
    (w.1, true, w.2)
  else
    (db, false, false)

/-- The whole per-sensor loop, threading the database and counting
`sensorsProcessed` and `recordsCreated`.  `rand idx` is the `Math.random()`
draw available to the sensor at position `idx`. -/
def processSensors (stKey : ℕ) (latestData : List UpEntry) (rand : ℕ → ℚ) (ts now : ℕ) :
    List SensorRow → ℕ → DB → DB × ℕ × ℕ
  | [], _, db => (db, 0, 0)
  | sensor :: rest, idx, db =>
    let step := processSensor db stKey latestData sensor (rand idx) ts now
    let restRes := processSensors stKey latestData rand ts now rest (idx + 1) step.1
    (restRes.1, (if step.2.1 then 1 else 0) + restRes.2.1,
      (if step.2.2 then 1 else 0) + restRes.2.2)

/-- The classified outcome object `processStation` returns.  Branches of
the source that omit a field are modelled with `0` / `none`. -/
structure StationResult where
  success : Bool
  reason : String
  sensorsProcessed : ℕ
  recordsCreated : ℕ
  errorMsg : Option String
deriving DecidableEq

/-- Everything external that can vary for one station during a run: the
station document, the outcome `fetchWithRetry` hands to
`getLatestMeasurements` (`.error` when every attempt failed and the last
error was thrown), an optionally injected error thrown by the
`sensorCollection.find` database call, and the `Math.random()` stream. -/
structure StationEnv where
  station : StationDoc
  fetchOutcome : Except String (List UpEntry)
  sensorFindError : Option String
  rand : ℕ → ℚ

/-- `getLatestMeasurements` (lines 43-62): on success the `results` list
(`data.results || []`); a thrown error is caught inside and becomes `[]`. -/
def getLatestMeasurements (fetchOutcome : Except String (List UpEntry)) : List UpEntry :=
  match fetchOutcome with
  | .ok l => l
  | .error _ => []

/-- `processStation` (lines 105-223).  The try/catch spans the whole body:
a thrown error is converted into the classified `error` outcome with the
message retained (line 221), leaving the database as it was at the throw
point — here before any write, since the modelled throw site is the sensor
`find`.  Guards in source order: missing id, empty latest data, no
sensors; then the per-sensor loop and the station `lastDataUpdate`
refresh. -/
def processStation (env : StationEnv) (db : DB) (ts now : ℕ) : StationResult × DB :=
  if env.station.id.isNone then
    ({ success := false, reason := "missing_id", sensorsProcessed := 0,
       recordsCreated := 0, errorMsg := none }, db)
  else
    let latestData := getLatestMeasurements env.fetchOutcome
    if latestData.length == 0 then
      ({ success := false, reason := "no_data", sensorsProcessed := 0,
         recordsCreated := 0, errorMsg := none }, db)
    else
      match env.sensorFindError with
      | some msg =>
        ({ success := false, reason := "error", sensorsProcessed := 0,
           recordsCreated := 0, errorMsg := some msg }, db)
      | none =>
        let sensors := db.sensors.filter (fun s => s.station == env.station.key)
        if sensors.length == 0 then
          ({ success := false, reason := "no_sensors", sensorsProcessed := 0,
             recordsCreated := 0, errorMsg := none }, db)
        else
          let res := processSensors env.station.key latestData env.rand ts now sensors 0 db
          let stationDataUpdated := decide (0 < res.2.2)
          let stations2 := updateFirst (fun st => st.key == env.station.key)
            (fun st => { st with lastDataUpdate := some now }) res.1.stations
          let db2 :=
            if 0 < res.2.2 then { res.1 with stations := stations2 } else res.1
          ({ success := stationDataUpdated,
             reason := if stationDataUpdated then "success" else "no_new_data",
             sensorsProcessed := res.2.1, recordsCreated := res.2.2,
             errorMsg := none }, db2)

/-- `laStations.slice(i, i + batchSize)` with `batchSize = 3` (line 331):
the slice split into batches of three. -/
def chunk3 : List α → List (List α)
  | [] => []
  | [a] => [[a]]
  | [a, b] => [[a, b]]
  | a :: b :: c :: rest => [a, b, c] :: chunk3 rest

/-- The fields written to the `lambjobprogress` document after every batch
(lines 371-385).  `lastRunTime` is pure wall clock and is omitted. -/
structure Checkpoint where
  lastOffset : ℕ
  nextOffset : ℕ
  totalStations : ℕ
  batchesCompleted : ℕ
  totalBatches : ℕ
  isFullyComplete : Bool
deriving DecidableEq

/-- The inner per-batch station loop (lines 339-347): strictly sequential,
threading the database. -/
def processBatch (ts now : ℕ) : List StationEnv → DB → List StationResult × DB
  | [], db => ([], db)
  | env :: rest, db =>
    let r := processStation env db ts now
    let restRes := processBatch ts now rest r.2
    (r.1 :: restRes.1, restRes.2)

/-- The batch loop of the handler (lines 330-386): process each batch of
three, then upsert the checkpoint — one checkpoint write per batch.
`batchNumber` starts at 1 (`Math.floor(i / batchSize) + 1`); the
checkpoint's `totalBatches` is `Math.ceil(totalStations / batchSize)`
(line 380). -/
def runBatches (offset endOffset totalStations ts now : ℕ) :
    List (List StationEnv) → ℕ → DB → DB × List StationResult × List Checkpoint
  | [], _, db => (db, [], [])
  | batch :: rest, batchNumber, db =>
    let batchRes := processBatch ts now batch db
    let cp : Checkpoint :=
      { lastOffset := offset
        nextOffset := if totalStations ≤ endOffset then 0 else endOffset
        totalStations := totalStations
        batchesCompleted := batchNumber
        totalBatches := (totalStations + 3 - 1) / 3
        isFullyComplete := totalStations ≤ endOffset }
    let restRes := runBatches offset endOffset totalStations ts now rest (batchNumber + 1) batchRes.2
    (restRes.1, batchRes.1 ++ restRes.2.1, cp :: restRes.2.2)

/-- Outcome of one handler run: status code, per-station outcomes in
order, checkpoint writes in order, final database state. -/
structure RunOutcome where
  statusCode : ℕ
  results : List StationResult
  checkpoints : List Checkpoint
  finalDb : DB

/-- The handler body after a successful connection (lines 279-415), over
the stations found in Los Angeles (`envs`, one environment per station in
query order): return 404 when there are none; otherwise apply the paging
logic (lines 301-304), align the current time to the whole hour (lines
309-310), and run the batch loop.  With an empty slice the batch loop body
never executes, so no checkpoint write happens. -/
def handlerRun (envs : List StationEnv) (offset maxPerRun : ℕ) (db : DB)
    (wallClock : ClockTime) (now : ℕ) : RunOutcome :=
  if envs.length == 0 then
    { statusCode := 404, results := [], checkpoints := [], finalDb := db }
  else
    let totalStations := envs.length
    let endOffset := min (offset + maxPerRun) totalStations
    let laStations := jsSlice envs offset endOffset
    let currentTime := (alignHour wallClock).epochMs
    let r := runBatches offset endOffset totalStations currentTime now (chunk3 laStations) 1 db
    { statusCode := 200, results := r.2.1, checkpoints := r.2.2, finalDb := r.1 }

/-- An upstream (OpenAQ) location as the matcher uses it: duck-typed
external id and name; `tag` stands for the rest of the payload so that two
candidates with equal identifiers remain distinguishable. -/
structure UpSite where
  id : Option ℕ
  name : Option String
  tag : ℕ
deriving DecidableEq

/-- A local station record as the matcher uses it. -/
structure LocalSite where
  key : ℕ
  id : Option ℕ
  name : Option String
deriving DecidableEq

/-- `String.prototype.toLowerCase()` on one character, for the ASCII
letters that appear in station names: an upper-case letter is shifted to
its lower-case form, anything else is unchanged. -/
def lowerChar (c : Char) : Char :=
  if 'A' ≤ c ∧ c ≤ 'Z' then Char.ofNat (c.toNat + 32) else c

/-- `String.prototype.toLowerCase()` as the matcher uses it. -/
def jsToLower (s : String) : String := String.mk (s.data.map lowerChar)

/-- The `locationMap` JavaScript object, modelled extensionally by its
lookup function: `map[k] = v` makes lookup of `k` return `v` and leaves
every other key unchanged; lookup of an unset key is undefined (`none`).
JavaScript object keys are strings, so a numeric id is keyed by its
decimal string. -/
def objSet (m : String → Option UpSite) (k : String) (v : UpSite) : String → Option UpSite :=
  fun k2 => if k2 = k then some v else m k2

/-- One iteration of the `locationMap` building loop of `matchStations`
(fixed-index.js lines 79-87): `if (location.id) map[location.id] =
location;` then `if (location.name) map[location.name.toLowerCase()] =
location`.  JavaScript truthiness skips id 0 and the empty name. -/
def locMapStep (m : String → Option UpSite) (loc : UpSite) : String → Option UpSite :=
  let m1 :=
    match loc.id with
    | some i => if i ≠ 0 then objSet m (toString i) loc else m
    | none => m
  match loc.name with
  | some n => if n ≠ "" then objSet m1 (jsToLower n) loc else m1
  | none => m1

/-- The `locationMap` built from the upstream list, starting empty. -/
def buildLocationMap (locations : List UpSite) : String → Option UpSite :=
  locations.foldl locMapStep (fun _ => none)

/-- Whether a location writes the key `k` into the map. -/
def setsKey (loc : UpSite) (k : String) : Bool :=
  (match loc.id with
   | some i => decide (i ≠ 0) && decide (k = toString i)
   | none => false) ||
  (match loc.name with
   | some n => decide (n ≠ "") && decide (k = jsToLower n)
   | none => false)

/-- One matched pair as `matchStations` records it. -/
structure MatchEntry where
  dbStation : LocalSite
  openaqLocation : UpSite
  matchType : String
deriving DecidableEq

/-- The return value of `matchStations`. -/
structure MatchResult where
  matchedStations : List MatchEntry
  unmatchedStations : List LocalSite
deriving DecidableEq

/-- The name fallback of the station loop (lines 102-110): a truthy local
name whose lower-cased form is in the map matches with type "name". -/
def matchOneByName (m : String → Option UpSite) (station : LocalSite) : Option MatchEntry :=
  match station.name with
  | some n =>
    if n ≠ "" then
      match m (jsToLower n) with
      | some loc => some ⟨station, loc, "name"⟩
      | none => none
    else none
  | none => none

/-- One iteration of the station loop (lines 91-113): try the id key
first (JavaScript truthiness skips id 0, and a missed id lookup falls
through to the name branch), then the lower-cased name, else no match. -/
def matchOne (m : String → Option UpSite) (station : LocalSite) : Option MatchEntry :=
  match station.id with
  | some i =>
    if i ≠ 0 then
      match m (toString i) with
      | some loc => some ⟨station, loc, "id"⟩
      | none => matchOneByName m station
    else matchOneByName m station
  | none => matchOneByName m station

/-- The station loop of `matchStations`, pushing matched and unmatched
stations in input order. -/
def matchLoop (m : String → Option UpSite) : List LocalSite → MatchResult
  | [] => ⟨[], []⟩
  | st :: rest =>
    let r := matchLoop m rest
    match matchOne m st with
    | some e => ⟨e :: r.matchedStations, r.unmatchedStations⟩
    | none => ⟨r.matchedStations, st :: r.unmatchedStations⟩

/-- `matchStations` (fixed-index.js lines 73-118). -/
def matchStations (dbStations : List LocalSite) (openaqLocations : List UpSite) : MatchResult :=
  matchLoop (buildLocationMap openaqLocations) dbStations

theorem range_drop_eq (m n : ℕ) : (List.range n).drop m = List.range' m (n - m) := by
  rcases le_or_lt m n with h | h
  · have hsplit : List.range' 0 m ++ List.range' m (n - m) = List.range n := by
      rw [List.range_eq_range']
      have happ := List.range'_append_1 0 m (n - m)
      rw [Nat.zero_add] at happ
      have hmn : n - m + m = n := by omega
      rw [hmn] at happ
      exact happ
    rw [← hsplit]
    exact List.drop_left' (List.length_range' ..)
  · rw [List.drop_eq_nil_of_le (by simpa using h.le), Nat.sub_eq_zero_of_le h.le,
      List.range'_zero]

theorem plan_slice_eq (T offset maxPerRun : ℕ) :
    (plan (List.range T) offset maxPerRun).slice =
      List.range' offset (min (offset + maxPerRun) T - offset) := by
  have hlen : (List.range T).length = T := List.length_range T
  simp only [plan, jsSlice, hlen]
  rw [List.take_range, range_drop_eq]
  congr 1
  omega

theorem plan_isComplete_eq (T offset maxPerRun : ℕ) :
    (plan (List.range T) offset maxPerRun).isComplete =
      decide (T ≤ min (offset + maxPerRun) T) := by
  simp [plan]

theorem plan_nextOffset_eq (T offset maxPerRun : ℕ) :
    (plan (List.range T) offset maxPerRun).nextOffset =
      if T ≤ min (offset + maxPerRun) T then 0 else min (offset + maxPerRun) T := by
  simp [plan]

theorem cycleSlices_flatten (T W : ℕ) (hW : 1 ≤ W) :
    ∀ fuel offset, offset < T → T - offset ≤ fuel →
      (cycleSlices T W fuel offset).flatten = List.range' offset (T - offset) := by
  intro fuel
  induction fuel with
  | zero => intro offset h1 h2; omega
  | succ fuel ih =>
    intro offset h1 h2
    rw [cycleSlices, plan_isComplete_eq, plan_nextOffset_eq, plan_slice_eq]
    simp only [decide_eq_true_eq]
    by_cases hc : T ≤ min (offset + W) T
    · have he : min (offset + W) T = T := by omega
      rw [if_pos hc]
      simp [he]
    · have he : min (offset + W) T = offset + W := by omega
      have hlt : offset + W < T := by omega
      rw [if_neg hc, if_neg hc, he]
      simp only [List.flatten_cons]
      rw [ih (offset + W) hlt (by omega)]
      have hwin : offset + W - offset = W := by omega
      rw [hwin, List.range'_append_1]
      congr 1
      omega

/-- C2: for `T ≥ 1` total sites and window `W ≥ 1`, iterating the Partition
Planner from offset 0 and following each returned `nextOffset` until
completion produces slices whose union covers every site index in `[0, T)`
exactly once per full cycle (and contains nothing outside `[0, T)`). -/
theorem c2_partition_coverage (T W : ℕ) (hT : 1 ≤ T) (hW : 1 ≤ W) :
    ∀ i : ℕ, (cycleSlices T W T 0).flatten.count i = if i < T then 1 else 0 := by
  intro i
  have hflat := cycleSlices_flatten T W hW T 0 (by omega) (by omega)
  rw [hflat, Nat.sub_zero]
  by_cases hi : i < T
  · rw [if_pos hi]
    exact List.count_eq_one_of_mem (List.nodup_range' 0 T) (by simp [List.mem_range'_1]; omega)
  · rw [if_neg hi]
    exact List.count_eq_zero_of_not_mem (by simp [List.mem_range'_1]; omega)

theorem c2_partition_coverage_witness :
    1 ≤ 7 ∧ 1 ≤ 3 ∧ (cycleSlices 7 3 7 0).flatten.count 5 = if 5 < 7 then 1 else 0 :=
  ⟨by decide, by decide, c2_partition_coverage 7 3 (by decide) (by decide) 5⟩

/-- C4: the planner yields the slice `[offset, min(offset+maxPerRun, T))`,
`remaining = T - min(offset+maxPerRun, T)` and
`isComplete = (min(offset+maxPerRun, T) ≥ T)`; concretely, with 130 sites,
window 50: offset 0 gives slice `[0, 50)`, remaining 80, isComplete false,
nextOffset 50, and offset 100 gives slice `[100, 130)`, remaining 0,
isComplete true, nextOffset 0. -/
theorem c4_planner_contract :
    (∀ T offset maxPerRun : ℕ,
      (plan (List.range T) offset maxPerRun).slice =
          List.range' offset (min (offset + maxPerRun) T - offset) ∧
      (plan (List.range T) offset maxPerRun).remaining = T - min (offset + maxPerRun) T ∧
      (plan (List.range T) offset maxPerRun).isComplete =
          decide (min (offset + maxPerRun) T ≥ T)) ∧
    plan (List.range 130) 0 50 =
      ⟨List.range' 0 50, 80, false, 50⟩ ∧
    plan (List.range 130) 100 50 =
      ⟨List.range' 100 30, 0, true, 0⟩ := by
  refine ⟨fun T offset maxPerRun => ⟨plan_slice_eq T offset maxPerRun, ?_, ?_⟩, ?_, ?_⟩
  · simp [plan]
  · simp [plan, ge_iff_le]
  · have h := plan_slice_eq 130 0 50
    simp only [show min (0 + 50) 130 - 0 = 50 by decide] at h
    simp [plan, List.length_range] at h ⊢
    exact h
  · have h := plan_slice_eq 130 100 50
    simp only [show min (100 + 50) 130 - 100 = 30 by decide] at h
    simp [plan, List.length_range] at h ⊢
    exact h

/-- C9: hour alignment zeroes minutes, seconds and milliseconds; two instants
in the same clock hour align identically, instants in different hours align
differently, alignment is idempotent, and on millisecond timestamps it is
exactly truncation to a multiple of an hour. -/
theorem c9_hour_alignment (t u : ClockTime)
    (hmin : t.minute < 60) (hsec : t.second < 60) (hms : t.ms < 1000) :
    alignHour t = ⟨t.hourIndex, 0, 0, 0⟩ ∧
    (t.hourIndex = u.hourIndex → alignHour t = alignHour u) ∧
    (t.hourIndex ≠ u.hourIndex → alignHour t ≠ alignHour u) ∧
    alignHour (alignHour t) = alignHour t ∧
    (alignHour t).epochMs = 3600000 * (t.epochMs / 3600000) := by
  refine ⟨rfl, ?_, ?_, rfl, ?_⟩
  · intro h; simp [alignHour, h]
  · intro h hcontra
    apply h
    have hidx : (alignHour t).hourIndex = (alignHour u).hourIndex :=
      congrArg ClockTime.hourIndex hcontra
    simpa [alignHour] using hidx
  · have hrem : t.minute * 60000 + t.second * 1000 + t.ms < 3600000 := by omega
    have hdiv : t.epochMs / 3600000 = t.hourIndex := by
      unfold ClockTime.epochMs
      omega
    rw [hdiv]
    unfold ClockTime.epochMs alignHour
    simp
    ring

theorem findExisting_none_iff (ms : List MeasRow) (stKey : ℕ) (pname : String) (ts : ℕ) :
    findExistingRecord ms stKey pname ts = none ↔ measKeyCount ms stKey pname ts = 0 := by
  simp [findExistingRecord, measKeyCount, List.find?_eq_none, List.countP_eq_zero]

theorem updateFirst_find? (p : α → Bool) (f : α → α)
    (hpf : ∀ a, p a = true → p (f a) = true) :
    ∀ l : List α, (updateFirst p f l).find? p = (l.find? p).map f := by
  intro l
  induction l with
  | nil => rfl
  | cons a rest ih =>
    simp only [updateFirst]
    by_cases hpa : p a = true
    · rw [if_pos hpa, List.find?_cons_of_pos _ (hpf a hpa), List.find?_cons_of_pos _ hpa]
      rfl
    · have hpa2 : ¬p a = true := hpa
      rw [if_neg hpa, List.find?_cons_of_neg _ hpa2, List.find?_cons_of_neg _ hpa2, ih]

theorem writeMeasurement_existing (db0 : DB) (stKey : ℕ) (sensor : SensorRow)
    (v : JVal) (sim : Bool) (ts now : ℕ)
    (hbusy : 0 < measKeyCount db0.measurements stKey sensor.param.name ts) :
    (writeMeasurement db0 stKey sensor v sim ts now).2 = false ∧
    (writeMeasurement db0 stKey sensor v sim ts now).1.measurements = db0.measurements ∧
    (writeMeasurement db0 stKey sensor v sim ts now).1.sensors =
      updateFirst (fun s => s.key == sensor.key)
        (fun s => { s with value := v, lastUpdated := now, isSimulated := sim })
        db0.sensors := by
  have hne : findExistingRecord db0.measurements stKey sensor.param.name ts ≠ none := by
    intro hnone
    have := (findExisting_none_iff db0.measurements stKey sensor.param.name ts).mp hnone
    omega
  rcases hfind : findExistingRecord db0.measurements stKey sensor.param.name ts with _ | m
  · exact absurd hfind hne
  · refine ⟨?_, ?_, ?_⟩ <;> simp [writeMeasurement, hfind]

theorem writeMeasurement_fresh (db : DB) (stKey : ℕ) (sensor : SensorRow)
    (v : JVal) (sim : Bool) (ts now : ℕ)
    (hfresh : measKeyCount db.measurements stKey sensor.param.name ts = 0) :
    (writeMeasurement db stKey sensor v sim ts now).2 = true ∧
    (writeMeasurement db stKey sensor v sim ts now).1.measurements =
      db.measurements ++
        [{ station := stKey, param := sensor.param, value := v,
           isSimulated := sim, timestamp := ts, createdAt := now }] ∧
    (writeMeasurement db stKey sensor v sim ts now).1.sensors =
      updateFirst (fun s => s.key == sensor.key)
        (fun s => { s with value := v, lastUpdated := now, isSimulated := sim })
        db.sensors := by
  have hfind : findExistingRecord db.measurements stKey sensor.param.name ts = none :=
    (findExisting_none_iff db.measurements stKey sensor.param.name ts).mpr hfresh
  refine ⟨?_, ?_, ?_⟩ <;> simp [writeMeasurement, hfind]

theorem measKeyCount_append_single (ms : List MeasRow) (stKey : ℕ) (pname : String)
    (ts : ℕ) (row : MeasRow) :
    measKeyCount (ms ++ [row]) stKey pname ts =
      measKeyCount ms stKey pname ts + (if measKeyMatches stKey pname ts row then 1 else 0) := by
  simp [measKeyCount, List.countP_append, List.countP_cons]

/-- C1: the Idempotent Writer performs an existence check on the key
(site, parameter name, aligned hour): when a record with that key already
exists, no Measurement is created (`created = false`) yet the Sensor's
cached value (value, lastUpdated, isSimulated) is still rewritten; when
none exists, exactly one new Measurement is inserted (`created = true`).
Hence writing the same tuple twice from a state with no such record leaves
exactly one Measurement, and the second write's Sensor update is the one
left in the store. -/
theorem c1_idempotent_writer (db db0 : DB) (stKey : ℕ) (sensor : SensorRow)
    (v1 v2 v : JVal) (sim1 sim2 sim : Bool) (ts now1 now2 now : ℕ)
    (hfresh : measKeyCount db.measurements stKey sensor.param.name ts = 0)
    (hbusy : 0 < measKeyCount db0.measurements stKey sensor.param.name ts) :
    (writeMeasurement db0 stKey sensor v sim ts now).2 = false ∧
    (writeMeasurement db0 stKey sensor v sim ts now).1.measurements = db0.measurements ∧
    (writeMeasurement db0 stKey sensor v sim ts now).1.sensors =
      updateFirst (fun s => s.key == sensor.key)
        (fun s => { s with value := v, lastUpdated := now, isSimulated := sim })
        db0.sensors ∧
    (writeMeasurement db stKey sensor v1 sim1 ts now1).2 = true ∧
    measKeyCount (writeMeasurement db stKey sensor v1 sim1 ts now1).1.measurements
        stKey sensor.param.name ts = 1 ∧
    (writeMeasurement (writeMeasurement db stKey sensor v1 sim1 ts now1).1
        stKey sensor v2 sim2 ts now2).2 = false ∧
    measKeyCount (writeMeasurement (writeMeasurement db stKey sensor v1 sim1 ts now1).1
        stKey sensor v2 sim2 ts now2).1.measurements stKey sensor.param.name ts = 1 ∧
    (writeMeasurement (writeMeasurement db stKey sensor v1 sim1 ts now1).1
        stKey sensor v2 sim2 ts now2).1.sensors.find? (fun s => s.key == sensor.key) =
      (db.sensors.find? (fun s => s.key == sensor.key)).map
        (fun s => { s with value := v2, lastUpdated := now2, isSimulated := sim2 }) := by
  obtain ⟨hb1, hb2, hb3⟩ := writeMeasurement_existing db0 stKey sensor v sim ts now hbusy
  obtain ⟨hf1, hf2, hf3⟩ := writeMeasurement_fresh db stKey sensor v1 sim1 ts now1 hfresh
  have hmatch : measKeyMatches stKey sensor.param.name ts
      { station := stKey, param := sensor.param, value := v1,
        isSimulated := sim1, timestamp := ts, createdAt := now1 } = true := by
    simp [measKeyMatches]
  have hcount1 : measKeyCount (writeMeasurement db stKey sensor v1 sim1 ts now1).1.measurements
      stKey sensor.param.name ts = 1 := by
    rw [hf2, measKeyCount_append_single, hfresh, hmatch]
    simp
  obtain ⟨hs1, hs2, hs3⟩ := writeMeasurement_existing
    (writeMeasurement db stKey sensor v1 sim1 ts now1).1 stKey sensor v2 sim2 ts now2
    (by omega)
  refine ⟨hb1, hb2, hb3, hf1, hcount1, hs1, ?_, ?_⟩
  · rw [hs2]; exact hcount1
  · have hA : (updateFirst (fun s : SensorRow => s.key == sensor.key)
        (fun s => { s with value := v1, lastUpdated := now1, isSimulated := sim1 })
        db.sensors).find? (fun s => s.key == sensor.key)
        = (db.sensors.find? (fun s => s.key == sensor.key)).map
            (fun s => { s with value := v1, lastUpdated := now1, isSimulated := sim1 }) :=
      updateFirst_find? _ _ (by intro a ha; exact ha) db.sensors
    have hB : (updateFirst (fun s : SensorRow => s.key == sensor.key)
        (fun s => { s with value := v2, lastUpdated := now2, isSimulated := sim2 })
        (updateFirst (fun s : SensorRow => s.key == sensor.key)
          (fun s => { s with value := v1, lastUpdated := now1, isSimulated := sim1 })
          db.sensors)).find? (fun s => s.key == sensor.key)
        = ((updateFirst (fun s : SensorRow => s.key == sensor.key)
            (fun s => { s with value := v1, lastUpdated := now1, isSimulated := sim1 })
            db.sensors).find? (fun s => s.key == sensor.key)).map
            (fun s => { s with value := v2, lastUpdated := now2, isSimulated := sim2 }) :=
      updateFirst_find? _ _ (by intro a ha; exact ha) _
    rw [hs3, hf3, hB, hA, Option.map_map]
    rfl

theorem c1_idempotent_writer_witness :
    measKeyCount (DB.mk [] [⟨1, 2, 3, none, ⟨1, "pm25", "ug", "PM25"⟩, JVal.null, 0, false⟩]
        []).measurements 2 (Param.mk 1 "pm25" "ug" "PM25").name 100 = 0 ∧
    0 < measKeyCount (DB.mk [⟨2, ⟨1, "pm25", "ug", "PM25"⟩, JVal.num 1, false, 100, 0⟩] []
        []).measurements 2 (Param.mk 1 "pm25" "ug" "PM25").name 100 ∧
    ((writeMeasurement (DB.mk [⟨2, ⟨1, "pm25", "ug", "PM25"⟩, JVal.num 1, false, 100, 0⟩] [] [])
        2 ⟨1, 2, 3, none, ⟨1, "pm25", "ug", "PM25"⟩, JVal.null, 0, false⟩
        (JVal.num 7) true 100 6).2 = false ∧
     (writeMeasurement (DB.mk [⟨2, ⟨1, "pm25", "ug", "PM25"⟩, JVal.num 1, false, 100, 0⟩] [] [])
        2 ⟨1, 2, 3, none, ⟨1, "pm25", "ug", "PM25"⟩, JVal.null, 0, false⟩
        (JVal.num 7) true 100 6).1.measurements =
       (DB.mk [⟨2, ⟨1, "pm25", "ug", "PM25"⟩, JVal.num 1, false, 100, 0⟩] [] []).measurements ∧
     (writeMeasurement (DB.mk [⟨2, ⟨1, "pm25", "ug", "PM25"⟩, JVal.num 1, false, 100, 0⟩] [] [])
        2 ⟨1, 2, 3, none, ⟨1, "pm25", "ug", "PM25"⟩, JVal.null, 0, false⟩
        (JVal.num 7) true 100 6).1.sensors =
       updateFirst (fun s => s.key == (1 : ℕ))
         (fun s => { s with value := JVal.num 7, lastUpdated := 6, isSimulated := true })
         (DB.mk [⟨2, ⟨1, "pm25", "ug", "PM25"⟩, JVal.num 1, false, 100, 0⟩] [] []).sensors ∧
     (writeMeasurement (DB.mk []
        [⟨1, 2, 3, none, ⟨1, "pm25", "ug", "PM25"⟩, JVal.null, 0, false⟩] [])
        2 ⟨1, 2, 3, none, ⟨1, "pm25", "ug", "PM25"⟩, JVal.null, 0, false⟩
        (JVal.num 10) false 100 4).2 = true ∧
     measKeyCount (writeMeasurement (DB.mk []
        [⟨1, 2, 3, none, ⟨1, "pm25", "ug", "PM25"⟩, JVal.null, 0, false⟩] [])
        2 ⟨1, 2, 3, none, ⟨1, "pm25", "ug", "PM25"⟩, JVal.null, 0, false⟩
        (JVal.num 10) false 100 4).1.measurements 2
        (Param.mk 1 "pm25" "ug" "PM25").name 100 = 1 ∧
     (writeMeasurement (writeMeasurement (DB.mk []
        [⟨1, 2, 3, none, ⟨1, "pm25", "ug", "PM25"⟩, JVal.null, 0, false⟩] [])
        2 ⟨1, 2, 3, none, ⟨1, "pm25", "ug", "PM25"⟩, JVal.null, 0, false⟩
        (JVal.num 10) false 100 4).1
        2 ⟨1, 2, 3, none, ⟨1, "pm25", "ug", "PM25"⟩, JVal.null, 0, false⟩
        (JVal.num 11) true 100 5).2 = false ∧
     measKeyCount (writeMeasurement (writeMeasurement (DB.mk []
        [⟨1, 2, 3, none, ⟨1, "pm25", "ug", "PM25"⟩, JVal.null, 0, false⟩] [])
        2 ⟨1, 2, 3, none, ⟨1, "pm25", "ug", "PM25"⟩, JVal.null, 0, false⟩
        (JVal.num 10) false 100 4).1
        2 ⟨1, 2, 3, none, ⟨1, "pm25", "ug", "PM25"⟩, JVal.null, 0, false⟩
        (JVal.num 11) true 100 5).1.measurements 2
        (Param.mk 1 "pm25" "ug" "PM25").name 100 = 1 ∧
     (writeMeasurement (writeMeasurement (DB.mk []
        [⟨1, 2, 3, none, ⟨1, "pm25", "ug", "PM25"⟩, JVal.null, 0, false⟩] [])
        2 ⟨1, 2, 3, none, ⟨1, "pm25", "ug", "PM25"⟩, JVal.null, 0, false⟩
        (JVal.num 10) false 100 4).1
        2 ⟨1, 2, 3, none, ⟨1, "pm25", "ug", "PM25"⟩, JVal.null, 0, false⟩
        (JVal.num 11) true 100 5).1.sensors.find?
          (fun s => s.key == (⟨1, 2, 3, none, ⟨1, "pm25", "ug", "PM25"⟩, JVal.null, 0,
            false⟩ : SensorRow).key) =
       ((DB.mk [] [⟨1, 2, 3, none, ⟨1, "pm25", "ug", "PM25"⟩, JVal.null, 0, false⟩]
          []).sensors.find?
          (fun s => s.key == (⟨1, 2, 3, none, ⟨1, "pm25", "ug", "PM25"⟩, JVal.null, 0,
            false⟩ : SensorRow).key)).map
         (fun s => { s with value := JVal.num 11, lastUpdated := 5, isSimulated := true })) :=
  ⟨by decide, by decide,
    c1_idempotent_writer
      (DB.mk [] [⟨1, 2, 3, none, ⟨1, "pm25", "ug", "PM25"⟩, JVal.null, 0, false⟩] [])
      (DB.mk [⟨2, ⟨1, "pm25", "ug", "PM25"⟩, JVal.num 1, false, 100, 0⟩] [] [])
      2 ⟨1, 2, 3, none, ⟨1, "pm25", "ug", "PM25"⟩, JVal.null, 0, false⟩
      (JVal.num 10) (JVal.num 11) (JVal.num 7) false true true 100 4 5 6
      (by decide) (by decide)⟩

theorem fetchWithRetry3_cases (responses : ℕ → Except String β) :
    (∃ b, responses 0 = .ok b ∧ fetchWithRetry responses 3 = ⟨.ok b, 1, []⟩) ∨
    (∃ e0 b, responses 0 = .error e0 ∧ responses 1 = .ok b ∧
      fetchWithRetry responses 3 = ⟨.ok b, 2, [4000]⟩) ∨
    (∃ e0 e1 b, responses 0 = .error e0 ∧ responses 1 = .error e1 ∧ responses 2 = .ok b ∧
      fetchWithRetry responses 3 = ⟨.ok b, 3, [4000, 8000]⟩) ∨
    (∃ e0 e1 e2, responses 0 = .error e0 ∧ responses 1 = .error e1 ∧
      responses 2 = .error e2 ∧
      fetchWithRetry responses 3 = ⟨.error (some e2), 3, [4000, 8000]⟩) := by
  rcases h0 : responses 0 with e0 | b0
  · rcases h1 : responses 1 with e1 | b1
    · rcases h2 : responses 2 with e2 | b2
      · refine .inr (.inr (.inr ⟨e0, e1, e2, rfl, rfl, rfl, ?_⟩))
        simp [fetchWithRetry, fetchRetryGo, h0, h1, h2]
      · refine .inr (.inr (.inl ⟨e0, e1, b2, rfl, rfl, rfl, ?_⟩))
        simp [fetchWithRetry, fetchRetryGo, h0, h1, h2]
    · refine .inr (.inl ⟨e0, b1, rfl, rfl, ?_⟩)
      simp [fetchWithRetry, fetchRetryGo, h0, h1]
  · refine .inl ⟨b0, rfl, ?_⟩
    simp [fetchWithRetry, fetchRetryGo, h0]

/-- C6: with the default of 3 attempts, `fetchWithRetry` makes at most 3
fetch calls; every backoff delay waited before a retry is `2000 * 2 ^ i`
for the attempt number `i ∈ {1, 2}` it precedes, so the waits grow
strictly with the attempt number; a success on the first attempt returns
the parsed body at once — even a body whose result list is empty — with no
retry and no delay; and when every attempt fails, the error of the last
attempt is the one thrown. -/
theorem c6_fetch_retry (responses : ℕ → Except String (List UpEntry)) :
    (fetchWithRetry responses 3).attempts ≤ 3 ∧
    (fetchWithRetry responses 3).delays.Pairwise (· < ·) ∧
    (∀ d ∈ (fetchWithRetry responses 3).delays, ∃ i, 1 ≤ i ∧ i < 3 ∧ d = 2000 * 2 ^ i) ∧
    (∀ body, responses 0 = .ok body →
      fetchWithRetry responses 3 = ⟨.ok body, 1, []⟩) ∧
    (∀ e0 e1 e2, responses 0 = .error e0 → responses 1 = .error e1 →
      responses 2 = .error e2 →
      fetchWithRetry responses 3 = ⟨.error (some e2), 3, [4000, 8000]⟩) := by
  have hdelays : ∀ d ∈ ([4000, 8000] : List ℕ), ∃ i, 1 ≤ i ∧ i < 3 ∧ d = 2000 * 2 ^ i := by
    intro d hd
    rcases List.mem_cons.mp hd with rfl | hd2
    · exact ⟨1, by norm_num⟩
    · rcases List.mem_cons.mp hd2 with rfl | hd3
      · exact ⟨2, by norm_num⟩
      · simp at hd3
  refine ⟨?_, ?_, ?_, ?_, ?_⟩
  · rcases fetchWithRetry3_cases responses with ⟨b, _, hr⟩ | ⟨e0, b, _, _, hr⟩ |
      ⟨e0, e1, b, _, _, _, hr⟩ | ⟨e0, e1, e2, _, _, _, hr⟩ <;> rw [hr] <;> norm_num
  · rcases fetchWithRetry3_cases responses with ⟨b, _, hr⟩ | ⟨e0, b, _, _, hr⟩ |
      ⟨e0, e1, b, _, _, _, hr⟩ | ⟨e0, e1, e2, _, _, _, hr⟩ <;> rw [hr] <;>
      norm_num [List.pairwise_cons]
  · rcases fetchWithRetry3_cases responses with ⟨b, _, hr⟩ | ⟨e0, b, _, _, hr⟩ |
      ⟨e0, e1, b, _, _, _, hr⟩ | ⟨e0, e1, e2, _, _, _, hr⟩ <;> rw [hr]
    · intro d hd; simp at hd
    · intro d hd
      simp only [List.mem_singleton] at hd
      subst hd
      exact ⟨1, by norm_num⟩
    · exact hdelays
    · exact hdelays
  · intro body hb
    simp [fetchWithRetry, fetchRetryGo, hb]
  · intro e0 e1 e2 h0 h1 h2
    simp [fetchWithRetry, fetchRetryGo, h0, h1, h2]

theorem c6_fetch_retry_witness :
    (fetchWithRetry (fun _ => (Except.error "boom" : Except String (List UpEntry))) 3).attempts ≤ 3 ∧
    (fetchWithRetry (fun _ => (Except.error "boom" : Except String (List UpEntry))) 3).delays.Pairwise (· < ·) ∧
    (∀ d ∈ (fetchWithRetry (fun _ => (Except.error "boom" : Except String (List UpEntry))) 3).delays,
      ∃ i, 1 ≤ i ∧ i < 3 ∧ d = 2000 * 2 ^ i) ∧
    (∀ body, (fun _ => (Except.error "boom" : Except String (List UpEntry))) 0 = Except.ok body →
      fetchWithRetry (fun _ => (Except.error "boom" : Except String (List UpEntry))) 3 = ⟨.ok body, 1, []⟩) ∧
    (∀ e0 e1 e2, (fun _ => (Except.error "boom" : Except String (List UpEntry))) 0 = Except.error e0 →
      (fun _ => (Except.error "boom" : Except String (List UpEntry))) 1 = Except.error e1 →
      (fun _ => (Except.error "boom" : Except String (List UpEntry))) 2 = Except.error e2 →
      fetchWithRetry (fun _ => (Except.error "boom" : Except String (List UpEntry))) 3 =
        ⟨.error (some e2), 3, [4000, 8000]⟩) :=
  c6_fetch_retry (fun _ => (Except.error "boom" : Except String (List UpEntry)))

theorem c9_hour_alignment_witness :
    (⟨5, 17, 3, 250⟩ : ClockTime).minute < 60 ∧
    (⟨5, 17, 3, 250⟩ : ClockTime).second < 60 ∧
    (⟨5, 17, 3, 250⟩ : ClockTime).ms < 1000 ∧
    (alignHour ⟨5, 17, 3, 250⟩ = ⟨5, 0, 0, 0⟩ ∧
     ((⟨5, 17, 3, 250⟩ : ClockTime).hourIndex = (⟨5, 44, 9, 1⟩ : ClockTime).hourIndex →
       alignHour ⟨5, 17, 3, 250⟩ = alignHour ⟨5, 44, 9, 1⟩) ∧
     ((⟨5, 17, 3, 250⟩ : ClockTime).hourIndex ≠ (⟨5, 44, 9, 1⟩ : ClockTime).hourIndex →
       alignHour ⟨5, 17, 3, 250⟩ ≠ alignHour ⟨5, 44, 9, 1⟩) ∧
     alignHour (alignHour ⟨5, 17, 3, 250⟩) = alignHour ⟨5, 17, 3, 250⟩ ∧
     (alignHour ⟨5, 17, 3, 250⟩).epochMs =
       3600000 * ((⟨5, 17, 3, 250⟩ : ClockTime).epochMs / 3600000)) :=
  ⟨by decide, by decide, by decide,
    c9_hour_alignment ⟨5, 17, 3, 250⟩ ⟨5, 44, 9, 1⟩ (by decide) (by decide) (by decide)⟩

theorem simRange (r lo span : ℚ) (hr0 : 0 ≤ r) (hr1 : r < 1) (hspan : 0 ≤ span) :
    lo ≤ r * span + lo ∧ r * span + lo ≤ span + lo := by
  constructor
  · nlinarith
  · nlinarith

/-- C8: every synthesized value lies in the documented per-parameter range
(pm25 [5,45], pm10 [10,60], o3 [10,70], no2 [5,55], so2 [1,21],
co [0.2,5.2], otherwise [5,35]); a sensor with no real reading in the
upstream payload resolves to a simulated value flagged
`isSimulated = true`, which the writer stamps onto both the inserted
Measurement and the Sensor's cached value, while a real numeric payload
value resolves with `isSimulated = false`. -/
theorem c8_value_fallback_bounds (r : ℚ) (hr0 : 0 ≤ r) (hr1 : r < 1) :
    (5 ≤ generateSimulatedValue "pm25" r ∧ generateSimulatedValue "pm25" r ≤ 45) ∧
    (10 ≤ generateSimulatedValue "pm10" r ∧ generateSimulatedValue "pm10" r ≤ 60) ∧
    (10 ≤ generateSimulatedValue "o3" r ∧ generateSimulatedValue "o3" r ≤ 70) ∧
    (5 ≤ generateSimulatedValue "no2" r ∧ generateSimulatedValue "no2" r ≤ 55) ∧
    (1 ≤ generateSimulatedValue "so2" r ∧ generateSimulatedValue "so2" r ≤ 21) ∧
    (1 / 5 ≤ generateSimulatedValue "co" r ∧ generateSimulatedValue "co" r ≤ 26 / 5) ∧
    (∀ p : String, p ≠ "pm25" → p ≠ "pm10" → p ≠ "o3" → p ≠ "no2" → p ≠ "so2" →
      p ≠ "co" → 5 ≤ generateSimulatedValue p r ∧ generateSimulatedValue p r ≤ 35) ∧
    (∀ (pname : String) (entry : Option UpEntry),
      (entry = none ∨ ∃ m : UpEntry, entry = some m ∧ m.value = JVal.undefined) →
      resolveValue pname entry r = (JVal.num (generateSimulatedValue pname r), true)) ∧
    (∀ (pname : String) (m : UpEntry) (q : ℚ), m.value = JVal.num q →
      resolveValue pname (some m) r = (JVal.num q, false)) ∧
    (∀ (db : DB) (stKey : ℕ) (latestData : List UpEntry) (sensor : SensorRow) (ts now : ℕ),
      sensorDataLookup latestData (effectiveSensorId sensor) = none →
      measKeyCount db.measurements stKey sensor.param.name ts = 0 →
      (processSensor db stKey latestData sensor r ts now).1.measurements =
        db.measurements ++
          [{ station := stKey, param := sensor.param,
             value := JVal.num (generateSimulatedValue sensor.param.name r),
             isSimulated := true, timestamp := ts, createdAt := now }] ∧
      (processSensor db stKey latestData sensor r ts now).1.sensors =
        updateFirst (fun s => s.key == sensor.key)
          (fun s => { s with value := JVal.num (generateSimulatedValue sensor.param.name r), lastUpdated := now, isSimulated := true })
          db.sensors) := by
  have h40 := simRange r 5 40 hr0 hr1 (by norm_num)
  have h50a := simRange r 10 50 hr0 hr1 (by norm_num)
  have h60 := simRange r 10 60 hr0 hr1 (by norm_num)
  have h50b := simRange r 5 50 hr0 hr1 (by norm_num)
  have h20 := simRange r 1 20 hr0 hr1 (by norm_num)
  have h5 := simRange r (1 / 5) 5 hr0 hr1 (by norm_num)
  have h30 := simRange r 5 30 hr0 hr1 (by norm_num)
  have e1 : generateSimulatedValue "pm25" r = r * 40 + 5 := rfl
  have e2 : generateSimulatedValue "pm10" r = r * 50 + 10 := rfl
  have e3 : generateSimulatedValue "o3" r = r * 60 + 10 := rfl
  have e4 : generateSimulatedValue "no2" r = r * 50 + 5 := rfl
  have e5 : generateSimulatedValue "so2" r = r * 20 + 1 := rfl
  have e6 : generateSimulatedValue "co" r = r * 5 + 1 / 5 := rfl
  refine ⟨?_, ?_, ?_, ?_, ?_, ?_, ?_, ?_, ?_, ?_⟩
  · rw [e1]
    exact ⟨by linarith [h40.1], by linarith [h40.2]⟩
  · rw [e2]
    exact ⟨by linarith [h50a.1], by linarith [h50a.2]⟩
  · rw [e3]
    exact ⟨by linarith [h60.1], by linarith [h60.2]⟩
  · rw [e4]
    exact ⟨by linarith [h50b.1], by linarith [h50b.2]⟩
  · rw [e5]
    exact ⟨by linarith [h20.1], by linarith [h20.2]⟩
  · rw [e6]
    exact ⟨by linarith [h5.1], by linarith [h5.2]⟩
  · intro p hp1 hp2 hp3 hp4 hp5 hp6
    simp only [generateSimulatedValue, if_neg hp1, if_neg hp2, if_neg hp3, if_neg hp4,
      if_neg hp5, if_neg hp6]
    exact ⟨by linarith [h30.1], by linarith [h30.2]⟩
  · intro pname entry hsim
    rcases hsim with rfl | ⟨m, rfl, hm⟩
    · rfl
    · simp [resolveValue, hm]
  · intro pname m q hm
    simp [resolveValue, hm]
  · intro db stKey latestData sensor ts now hlook hfresh
    have hrv : resolveValue sensor.param.name
        (sensorDataLookup latestData (effectiveSensorId sensor)) r
        = (JVal.num (generateSimulatedValue sensor.param.name r), true) := by
      rw [hlook]
      rfl
    obtain ⟨hw1, hw2, hw3⟩ := writeMeasurement_fresh db stKey sensor
      (JVal.num (generateSimulatedValue sensor.param.name r)) true ts now hfresh
    constructor
    · simp only [processSensor, hrv]
      rw [if_pos (by simp)]
      exact hw2
    · simp only [processSensor, hrv]
      rw [if_pos (by simp)]
      exact hw3

theorem c8_value_fallback_bounds_witness :
    (0 : ℚ) ≤ 1 / 2 ∧ (1 / 2 : ℚ) < 1 ∧
    ((5 ≤ generateSimulatedValue "pm25" (1 / 2) ∧
        generateSimulatedValue "pm25" (1 / 2) ≤ 45) ∧
     (10 ≤ generateSimulatedValue "pm10" (1 / 2) ∧
        generateSimulatedValue "pm10" (1 / 2) ≤ 60) ∧
     (10 ≤ generateSimulatedValue "o3" (1 / 2) ∧
        generateSimulatedValue "o3" (1 / 2) ≤ 70) ∧
     (5 ≤ generateSimulatedValue "no2" (1 / 2) ∧
        generateSimulatedValue "no2" (1 / 2) ≤ 55) ∧
     (1 ≤ generateSimulatedValue "so2" (1 / 2) ∧
        generateSimulatedValue "so2" (1 / 2) ≤ 21) ∧
     (1 / 5 ≤ generateSimulatedValue "co" (1 / 2) ∧
        generateSimulatedValue "co" (1 / 2) ≤ 26 / 5) ∧
     (∀ p : String, p ≠ "pm25" → p ≠ "pm10" → p ≠ "o3" → p ≠ "no2" → p ≠ "so2" →
       p ≠ "co" → 5 ≤ generateSimulatedValue p (1 / 2) ∧
         generateSimulatedValue p (1 / 2) ≤ 35) ∧
     (∀ (pname : String) (entry : Option UpEntry),
       (entry = none ∨ ∃ m : UpEntry, entry = some m ∧ m.value = JVal.undefined) →
       resolveValue pname entry (1 / 2) =
         (JVal.num (generateSimulatedValue pname (1 / 2)), true)) ∧
     (∀ (pname : String) (m : UpEntry) (q : ℚ), m.value = JVal.num q →
       resolveValue pname (some m) (1 / 2) = (JVal.num q, false)) ∧
     (∀ (db : DB) (stKey : ℕ) (latestData : List UpEntry) (sensor : SensorRow) (ts now : ℕ),
       sensorDataLookup latestData (effectiveSensorId sensor) = none →
       measKeyCount db.measurements stKey sensor.param.name ts = 0 →
       (processSensor db stKey latestData sensor (1 / 2) ts now).1.measurements =
         db.measurements ++
           [{ station := stKey, param := sensor.param,
              value := JVal.num (generateSimulatedValue sensor.param.name (1 / 2)),
              isSimulated := true, timestamp := ts, createdAt := now }] ∧
       (processSensor db stKey latestData sensor (1 / 2) ts now).1.sensors =
         updateFirst (fun s => s.key == sensor.key)
           (fun s => { s with value := JVal.num (generateSimulatedValue sensor.param.name (1 / 2)), lastUpdated := now, isSimulated := true })
           db.sensors)) :=
  ⟨by norm_num, by norm_num, c8_value_fallback_bounds (1 / 2) (by norm_num) (by norm_num)⟩

/-- C10 fails on the code: an upstream entry whose `value` field is an
explicit JSON null passes the real-reading test (`value !== undefined`),
is not replaced by a simulated value, and is then rejected by the
`value !== null` guard — the sensor is skipped, no Measurement write and no
cached-value update happen, and the station reports `no_new_data`. -/
theorem c10_counterexample :
    resolveValue "pm25" (some ⟨7, JVal.null⟩) 0 = (JVal.null, false) ∧
    processSensor ⟨[], [⟨1, 2, 7, none, ⟨1, "pm25", "ug", "PM25"⟩, JVal.undefined, 0, false⟩],
        []⟩ 2 [⟨7, JVal.null⟩]
        ⟨1, 2, 7, none, ⟨1, "pm25", "ug", "PM25"⟩, JVal.undefined, 0, false⟩ 0 100 5 =
      (⟨[], [⟨1, 2, 7, none, ⟨1, "pm25", "ug", "PM25"⟩, JVal.undefined, 0, false⟩], []⟩,
        false, false) ∧
    (processStation
        ⟨⟨2, some 9, none⟩, Except.ok [⟨7, JVal.null⟩], none, fun _ => 0⟩
        ⟨[], [⟨1, 2, 7, none, ⟨1, "pm25", "ug", "PM25"⟩, JVal.undefined, 0, false⟩], []⟩
        100 5).1 =
      ⟨false, "no_new_data", 0, 0, none⟩ ∧
    (processStation
        ⟨⟨2, some 9, none⟩, Except.ok [⟨7, JVal.null⟩], none, fun _ => 0⟩
        ⟨[], [⟨1, 2, 7, none, ⟨1, "pm25", "ug", "PM25"⟩, JVal.undefined, 0, false⟩], []⟩
        100 5).2 =
      ⟨[], [⟨1, 2, 7, none, ⟨1, "pm25", "ug", "PM25"⟩, JVal.undefined, 0, false⟩], []⟩ :=
  ⟨rfl, rfl, rfl, rfl⟩

/-- C10 (amended): the resolved value is never `undefined`, and it can be
null only when the upstream entry found for the sensor explicitly carries
a JSON null; provided the payload entry for the sensor (when present)
carries a non-null value, the resolved value is non-null, the null-check
branch is not taken, and the sensor receives the existence-checked
Measurement write and the cached-value update. -/
theorem c10_no_null_resolution (pname : String) (entry : Option UpEntry) (r : ℚ)
    (db : DB) (stKey : ℕ) (latestData : List UpEntry) (sensor : SensorRow) (ts now : ℕ)
    (hnn : ∀ m : UpEntry, sensorDataLookup latestData (effectiveSensorId sensor) = some m →
      m.value ≠ JVal.null) :
    (resolveValue pname entry r).1 ≠ JVal.undefined ∧
    ((∀ m : UpEntry, entry = some m → m.value ≠ JVal.null) →
      (resolveValue pname entry r).1 ≠ JVal.null) ∧
    processSensor db stKey latestData sensor r ts now =
      ((writeMeasurement db stKey sensor
          (resolveValue sensor.param.name
            (sensorDataLookup latestData (effectiveSensorId sensor)) r).1
          (resolveValue sensor.param.name
            (sensorDataLookup latestData (effectiveSensorId sensor)) r).2 ts now).1,
        true,
        (writeMeasurement db stKey sensor
          (resolveValue sensor.param.name
            (sensorDataLookup latestData (effectiveSensorId sensor)) r).1
          (resolveValue sensor.param.name
            (sensorDataLookup latestData (effectiveSensorId sensor)) r).2 ts now).2) := by
  have hgen : ∀ (pn : String) (e : Option UpEntry),
      (resolveValue pn e r).1 ≠ JVal.undefined := by
    intro pn e
    rcases e with _ | m
    · simp [resolveValue]
    · rcases hmv : m.value with _ | _ | q <;> simp [resolveValue, hmv]
  have hnull : ∀ (pn : String) (e : Option UpEntry),
      (∀ m : UpEntry, e = some m → m.value ≠ JVal.null) →
      (resolveValue pn e r).1 ≠ JVal.null := by
    intro pn e he
    rcases e with _ | m
    · simp [resolveValue]
    · have hm := he m rfl
      rcases hmv : m.value with _ | _ | q
      · simp [resolveValue, hmv]
      · exact absurd hmv hm
      · simp [resolveValue, hmv]
  refine ⟨hgen pname entry, hnull pname entry, ?_⟩
  have hcond : (resolveValue sensor.param.name
      (sensorDataLookup latestData (effectiveSensorId sensor)) r).1 ≠ JVal.null :=
    hnull sensor.param.name (sensorDataLookup latestData (effectiveSensorId sensor)) hnn
  simp only [processSensor]
  rw [if_pos hcond]

theorem c10_no_null_resolution_witness :
    (∀ m : UpEntry, sensorDataLookup [UpEntry.mk 7 (JVal.num 12)]
        (effectiveSensorId ⟨1, 2, 7, none, ⟨1, "pm25", "ug", "PM25"⟩, JVal.undefined, 0,
          false⟩) = some m → m.value ≠ JVal.null) ∧
    ((resolveValue "pm25" (some (UpEntry.mk 7 (JVal.num 12))) 0).1 ≠ JVal.undefined ∧
     ((∀ m : UpEntry, some (UpEntry.mk 7 (JVal.num 12)) = some m → m.value ≠ JVal.null) →
       (resolveValue "pm25" (some (UpEntry.mk 7 (JVal.num 12))) 0).1 ≠ JVal.null) ∧
     processSensor ⟨[], [⟨1, 2, 7, none, ⟨1, "pm25", "ug", "PM25"⟩, JVal.undefined, 0,
         false⟩], []⟩ 2 [UpEntry.mk 7 (JVal.num 12)]
         ⟨1, 2, 7, none, ⟨1, "pm25", "ug", "PM25"⟩, JVal.undefined, 0, false⟩ 0 100 5 =
       ((writeMeasurement ⟨[], [⟨1, 2, 7, none, ⟨1, "pm25", "ug", "PM25"⟩, JVal.undefined, 0,
            false⟩], []⟩ 2
            ⟨1, 2, 7, none, ⟨1, "pm25", "ug", "PM25"⟩, JVal.undefined, 0, false⟩
            (resolveValue (Param.mk 1 "pm25" "ug" "PM25").name
              (sensorDataLookup [UpEntry.mk 7 (JVal.num 12)]
                (effectiveSensorId ⟨1, 2, 7, none, ⟨1, "pm25", "ug", "PM25"⟩, JVal.undefined,
                  0, false⟩)) 0).1
            (resolveValue (Param.mk 1 "pm25" "ug" "PM25").name
              (sensorDataLookup [UpEntry.mk 7 (JVal.num 12)]
                (effectiveSensorId ⟨1, 2, 7, none, ⟨1, "pm25", "ug", "PM25"⟩, JVal.undefined,
                  0, false⟩)) 0).2 100 5).1,
         true,
         (writeMeasurement ⟨[], [⟨1, 2, 7, none, ⟨1, "pm25", "ug", "PM25"⟩, JVal.undefined, 0,
            false⟩], []⟩ 2
            ⟨1, 2, 7, none, ⟨1, "pm25", "ug", "PM25"⟩, JVal.undefined, 0, false⟩
            (resolveValue (Param.mk 1 "pm25" "ug" "PM25").name
              (sensorDataLookup [UpEntry.mk 7 (JVal.num 12)]
                (effectiveSensorId ⟨1, 2, 7, none, ⟨1, "pm25", "ug", "PM25"⟩, JVal.undefined,
                  0, false⟩)) 0).1
            (resolveValue (Param.mk 1 "pm25" "ug" "PM25").name
              (sensorDataLookup [UpEntry.mk 7 (JVal.num 12)]
                (effectiveSensorId ⟨1, 2, 7, none, ⟨1, "pm25", "ug", "PM25"⟩, JVal.undefined,
                  0, false⟩)) 0).2 100 5).2)) :=
  ⟨by decide,
    c10_no_null_resolution "pm25" (some (UpEntry.mk 7 (JVal.num 12))) 0
      ⟨[], [⟨1, 2, 7, none, ⟨1, "pm25", "ug", "PM25"⟩, JVal.undefined, 0, false⟩], []⟩ 2
      [UpEntry.mk 7 (JVal.num 12)]
      ⟨1, 2, 7, none, ⟨1, "pm25", "ug", "PM25"⟩, JVal.undefined, 0, false⟩ 100 5
      (by decide)⟩

theorem jsSlice_nil_of_le (l : List α) (s e : ℕ) (h : e ≤ s) : jsSlice l s e = [] := by
  apply List.drop_eq_nil_of_le
  calc (l.take e).length ≤ e := by simp [List.length_take]
    _ ≤ s := h

/-- C3 fails on the code: with one station in the bounds and offset 5, the
slice is empty, the batch loop runs zero times, and therefore no
checkpoint write happens at all — the run is a no-op that does NOT update
the checkpoint. -/
theorem c3_counterexample :
    (1 : ℕ) ≤ ([⟨⟨1, some 3, none⟩, Except.ok [], none, fun _ => 0⟩] :
      List StationEnv).length ∧
    ([⟨⟨1, some 3, none⟩, Except.ok [], none, fun _ => 0⟩] : List StationEnv).length ≤ 5 ∧
    (handlerRun [⟨⟨1, some 3, none⟩, Except.ok [], none, fun _ => 0⟩] 5 50
        ⟨[], [], []⟩ ⟨0, 0, 0, 0⟩ 0).results = [] ∧
    (handlerRun [⟨⟨1, some 3, none⟩, Except.ok [], none, fun _ => 0⟩] 5 50
        ⟨[], [], []⟩ ⟨0, 0, 0, 0⟩ 0).checkpoints = [] ∧
    (handlerRun [⟨⟨1, some 3, none⟩, Except.ok [], none, fun _ => 0⟩] 5 50
        ⟨[], [], []⟩ ⟨0, 0, 0, 0⟩ 0).finalDb = ⟨[], [], []⟩ :=
  ⟨by norm_num, by norm_num, rfl, rfl, rfl⟩

/-- C3 (amended): when the configured offset is at least the total station
count (with at least one station, so the 404 guard does not fire), the
slice is empty and the run processes no station — but because the
checkpoint upsert sits inside the batch loop, the run performs no
checkpoint write either: it returns 200 with no results, no checkpoint
update, and an unchanged database, so the next run's offset is whatever it
was before. -/
theorem c3_empty_slice_no_checkpoint (envs : List StationEnv) (offset maxPerRun : ℕ)
    (db : DB) (w : ClockTime) (now : ℕ)
    (h1 : 1 ≤ envs.length) (h2 : envs.length ≤ offset) :
    handlerRun envs offset maxPerRun db w now =
      ⟨200, [], [], db⟩ := by
  have hne : (envs.length == 0) = false := by
    simp only [beq_eq_false_iff_ne, ne_eq]
    omega
  have hempty : jsSlice envs offset (min (offset + maxPerRun) envs.length) = [] :=
    jsSlice_nil_of_le envs offset _ (by omega)
  simp only [handlerRun, hne, Bool.false_eq_true, if_false, hempty]
  rfl

theorem c3_empty_slice_no_checkpoint_witness :
    (1 : ℕ) ≤ ([⟨⟨4, some 8, none⟩, Except.error "x", none, fun _ => 0⟩] :
      List StationEnv).length ∧
    ([⟨⟨4, some 8, none⟩, Except.error "x", none, fun _ => 0⟩] : List StationEnv).length ≤ 9 ∧
    handlerRun [⟨⟨4, some 8, none⟩, Except.error "x", none, fun _ => 0⟩] 9 20
        ⟨[], [], []⟩ ⟨1, 2, 3, 4⟩ 7 =
      ⟨200, [], [], ⟨[], [], []⟩⟩ :=
  ⟨by norm_num, by norm_num,
    c3_empty_slice_no_checkpoint [⟨⟨4, some 8, none⟩, Except.error "x", none, fun _ => 0⟩]
      9 20 ⟨[], [], []⟩ ⟨1, 2, 3, 4⟩ 7 (by norm_num) (by norm_num)⟩

theorem processStation_classified (env : StationEnv) (db : DB) (ts now : ℕ) :
    (processStation env db ts now).1.reason ∈
      (["success", "no_new_data", "no_data", "no_sensors", "missing_id", "error"] :
        List String) ∧
    ((processStation env db ts now).1.reason = "error" →
      (processStation env db ts now).1.errorMsg.isSome) := by
  rcases hid : env.station.id with _ | i
  · constructor
    · simp [processStation, hid]
    · simp only [processStation, hid]
      intro h
      simp at h
  · by_cases hld : (getLatestMeasurements env.fetchOutcome).length == 0
    · constructor
      · simp [processStation, hid, hld]
      · simp only [processStation, hid, Option.isNone_some, if_false, hld, if_true]
        intro h
        simp at h
    · rcases herr : env.sensorFindError with _ | msg
      · by_cases hns : ((db.sensors.filter
            (fun s => s.station == env.station.key)).length == 0)
        · constructor
          · simp [processStation, hid, hld, herr, hns]
          · simp only [processStation, hid, Option.isNone_some, if_false, hld, herr, hns,
              if_true]
            intro h
            simp at h
        · have hreason : (processStation env db ts now).1.reason =
              (if 0 < (processSensors env.station.key
                  (getLatestMeasurements env.fetchOutcome) env.rand ts now
                  (db.sensors.filter (fun s => s.station == env.station.key)) 0 db).2.2
               then "success" else "no_new_data") := by
            simp [processStation, hid, hld, herr, hns]
          constructor
          · rw [hreason]
            by_cases hupd : 0 < (processSensors env.station.key
                (getLatestMeasurements env.fetchOutcome) env.rand ts now
                (db.sensors.filter (fun s => s.station == env.station.key)) 0 db).2.2
            · rw [if_pos hupd]; simp
            · rw [if_neg hupd]; simp
          · rw [hreason]
            intro h
            by_cases hupd : 0 < (processSensors env.station.key
                (getLatestMeasurements env.fetchOutcome) env.rand ts now
                (db.sensors.filter (fun s => s.station == env.station.key)) 0 db).2.2
            · rw [if_pos hupd] at h; simp at h
            · rw [if_neg hupd] at h; simp at h
      · constructor
        · simp [processStation, hid, hld, herr]
        · simp only [processStation, hid, Option.isNone_some, if_false, hld, herr]
          intro _
          simp

theorem processBatch_length (ts now : ℕ) :
    ∀ (batch : List StationEnv) (db : DB),
      (processBatch ts now batch db).1.length = batch.length
  | [], _ => rfl
  | env :: rest, db => by
    simp only [processBatch, List.length_cons]
    rw [processBatch_length ts now rest (processStation env db ts now).2]

theorem processBatch_mem (ts now : ℕ) :
    ∀ (batch : List StationEnv) (db : DB),
      ∀ res ∈ (processBatch ts now batch db).1,
        ∃ (env : StationEnv) (db2 : DB), res = (processStation env db2 ts now).1
  | [], db => by intro res h; simp [processBatch] at h
  | env :: rest, db => by
    intro res hres
    simp only [processBatch, List.mem_cons] at hres
    rcases hres with rfl | h
    · exact ⟨env, db, rfl⟩
    · exact processBatch_mem ts now rest (processStation env db ts now).2 res h

theorem runBatches_stats (offset endOffset total ts now : ℕ) :
    ∀ (batches : List (List StationEnv)) (bn : ℕ) (db : DB),
      (runBatches offset endOffset total ts now batches bn db).2.1.length
          = batches.flatten.length ∧
      (runBatches offset endOffset total ts now batches bn db).2.2.length
          = batches.length ∧
      ∀ res ∈ (runBatches offset endOffset total ts now batches bn db).2.1,
        ∃ (env : StationEnv) (db2 : DB), res = (processStation env db2 ts now).1 := by
  intro batches
  induction batches with
  | nil =>
    intro bn db
    refine ⟨rfl, rfl, ?_⟩
    intro res h
    simp [runBatches] at h
  | cons batch rest ih =>
    intro bn db
    obtain ⟨ih1, ih2, ih3⟩ := ih (bn + 1) (processBatch ts now batch db).2
    refine ⟨?_, ?_, ?_⟩
    · simp only [runBatches, List.length_append, List.flatten_cons, ih1,
        processBatch_length ts now batch db]
    · simp only [runBatches, List.length_cons, ih2]
    · intro res hres
      simp only [runBatches, List.mem_append] at hres
      rcases hres with h | h
      · exact processBatch_mem ts now batch db res h
      · exact ih3 res h

theorem chunk3_flatten : ∀ l : List α, (chunk3 l).flatten = l
  | [] => rfl
  | [_] => rfl
  | [_, _] => rfl
  | a :: b :: c :: rest => by
    simp only [chunk3, List.flatten_cons]
    rw [chunk3_flatten rest]
    rfl

/-- C7: every per-station outcome of a run carries one of the six
classified reasons — `success`, `no_new_data`, `no_data`, `no_sensors`,
`missing_id`, `error` — and an `error` outcome retains the thrown message;
exactly one outcome is produced for every station of the slice, so the
failure of one station never aborts the rest of its batch or slice; and
one checkpoint write happens per batch regardless of the outcomes. -/
theorem c7_partial_failure_isolation (envs : List StationEnv) (offset maxPerRun : ℕ)
    (db : DB) (w : ClockTime) (now : ℕ) :
    (∀ res ∈ (handlerRun envs offset maxPerRun db w now).results,
      res.reason ∈ (["success", "no_new_data", "no_data", "no_sensors", "missing_id",
        "error"] : List String) ∧
      (res.reason = "error" → res.errorMsg.isSome)) ∧
    (handlerRun envs offset maxPerRun db w now).results.length
      = (jsSlice envs offset (min (offset + maxPerRun) envs.length)).length ∧
    (handlerRun envs offset maxPerRun db w now).checkpoints.length
      = (chunk3 (jsSlice envs offset (min (offset + maxPerRun) envs.length))).length := by
  by_cases h0 : envs.length == 0
  · have hnil : envs = [] := List.length_eq_zero.mp (by simpa using h0)
    subst hnil
    refine ⟨?_, ?_, ?_⟩
    · intro res hres
      simp [handlerRun] at hres
    · simp [handlerRun, jsSlice]
    · simp [handlerRun, jsSlice, chunk3]
  · obtain ⟨hlen, hcps, hmem⟩ := runBatches_stats offset
      (min (offset + maxPerRun) envs.length) envs.length ((alignHour w).epochMs) now
      (chunk3 (jsSlice envs offset (min (offset + maxPerRun) envs.length))) 1 db
    have hrun : handlerRun envs offset maxPerRun db w now =
        { statusCode := 200
          results := (runBatches offset (min (offset + maxPerRun) envs.length) envs.length
            ((alignHour w).epochMs) now
            (chunk3 (jsSlice envs offset (min (offset + maxPerRun) envs.length))) 1 db).2.1
          checkpoints := (runBatches offset (min (offset + maxPerRun) envs.length) envs.length
            ((alignHour w).epochMs) now
            (chunk3 (jsSlice envs offset (min (offset + maxPerRun) envs.length))) 1 db).2.2
          finalDb := (runBatches offset (min (offset + maxPerRun) envs.length) envs.length
            ((alignHour w).epochMs) now
            (chunk3 (jsSlice envs offset (min (offset + maxPerRun) envs.length))) 1 db).1 } := by
      simp only [handlerRun, h0, Bool.false_eq_true, if_false]
    refine ⟨?_, ?_, ?_⟩
    · intro res hres
      rw [hrun] at hres
      obtain ⟨env, db2, rfl⟩ := hmem res hres
      exact processStation_classified env db2 ((alignHour w).epochMs) now
    · rw [hrun]
      simpa [chunk3_flatten] using hlen
    · rw [hrun]
      exact hcps

theorem c7_partial_failure_isolation_witness :
    (∀ res ∈ (handlerRun
        [⟨⟨1, some 3, none⟩, Except.error "down", none, fun _ => 0⟩,
         ⟨⟨2, none, none⟩, Except.ok [], none, fun _ => 0⟩,
         ⟨⟨3, some 5, none⟩, Except.ok [⟨7, JVal.num 2⟩], some "db broke", fun _ => 0⟩,
         ⟨⟨4, some 6, none⟩, Except.ok [⟨8, JVal.num 3⟩], none, fun _ => 0⟩]
        0 50 ⟨[], [], []⟩ ⟨0, 0, 0, 0⟩ 0).results,
      res.reason ∈ (["success", "no_new_data", "no_data", "no_sensors", "missing_id",
        "error"] : List String) ∧
      (res.reason = "error" → res.errorMsg.isSome)) ∧
    (handlerRun
        [⟨⟨1, some 3, none⟩, Except.error "down", none, fun _ => 0⟩,
         ⟨⟨2, none, none⟩, Except.ok [], none, fun _ => 0⟩,
         ⟨⟨3, some 5, none⟩, Except.ok [⟨7, JVal.num 2⟩], some "db broke", fun _ => 0⟩,
         ⟨⟨4, some 6, none⟩, Except.ok [⟨8, JVal.num 3⟩], none, fun _ => 0⟩]
        0 50 ⟨[], [], []⟩ ⟨0, 0, 0, 0⟩ 0).results.length
      = (jsSlice
          ([⟨⟨1, some 3, none⟩, Except.error "down", none, fun _ => 0⟩,
           ⟨⟨2, none, none⟩, Except.ok [], none, fun _ => 0⟩,
           ⟨⟨3, some 5, none⟩, Except.ok [⟨7, JVal.num 2⟩], some "db broke", fun _ => 0⟩,
           ⟨⟨4, some 6, none⟩, Except.ok [⟨8, JVal.num 3⟩], none, fun _ => 0⟩] :
           List StationEnv)
          0 (min (0 + 50)
            ([⟨⟨1, some 3, none⟩, Except.error "down", none, fun _ => 0⟩,
              ⟨⟨2, none, none⟩, Except.ok [], none, fun _ => 0⟩,
              ⟨⟨3, some 5, none⟩, Except.ok [⟨7, JVal.num 2⟩], some "db broke", fun _ => 0⟩,
              ⟨⟨4, some 6, none⟩, Except.ok [⟨8, JVal.num 3⟩], none, fun _ => 0⟩] :
              List StationEnv).length)).length ∧
    (handlerRun
        [⟨⟨1, some 3, none⟩, Except.error "down", none, fun _ => 0⟩,
         ⟨⟨2, none, none⟩, Except.ok [], none, fun _ => 0⟩,
         ⟨⟨3, some 5, none⟩, Except.ok [⟨7, JVal.num 2⟩], some "db broke", fun _ => 0⟩,
         ⟨⟨4, some 6, none⟩, Except.ok [⟨8, JVal.num 3⟩], none, fun _ => 0⟩]
        0 50 ⟨[], [], []⟩ ⟨0, 0, 0, 0⟩ 0).checkpoints.length
      = (chunk3 (jsSlice
          ([⟨⟨1, some 3, none⟩, Except.error "down", none, fun _ => 0⟩,
           ⟨⟨2, none, none⟩, Except.ok [], none, fun _ => 0⟩,
           ⟨⟨3, some 5, none⟩, Except.ok [⟨7, JVal.num 2⟩], some "db broke", fun _ => 0⟩,
           ⟨⟨4, some 6, none⟩, Except.ok [⟨8, JVal.num 3⟩], none, fun _ => 0⟩] :
           List StationEnv)
          0 (min (0 + 50)
            ([⟨⟨1, some 3, none⟩, Except.error "down", none, fun _ => 0⟩,
              ⟨⟨2, none, none⟩, Except.ok [], none, fun _ => 0⟩,
              ⟨⟨3, some 5, none⟩, Except.ok [⟨7, JVal.num 2⟩], some "db broke", fun _ => 0⟩,
              ⟨⟨4, some 6, none⟩, Except.ok [⟨8, JVal.num 3⟩], none, fun _ => 0⟩] :
              List StationEnv).length))).length :=
  c7_partial_failure_isolation
    [⟨⟨1, some 3, none⟩, Except.error "down", none, fun _ => 0⟩,
     ⟨⟨2, none, none⟩, Except.ok [], none, fun _ => 0⟩,
     ⟨⟨3, some 5, none⟩, Except.ok [⟨7, JVal.num 2⟩], some "db broke", fun _ => 0⟩,
     ⟨⟨4, some 6, none⟩, Except.ok [⟨8, JVal.num 3⟩], none, fun _ => 0⟩]
    0 50 ⟨[], [], []⟩ ⟨0, 0, 0, 0⟩ 0

theorem locMapStep_get (m : String → Option UpSite) (loc : UpSite) (k : String) :
    locMapStep m loc k = if setsKey loc k then some loc else m k := by
  rcases hn : loc.name with _ | n
  · rcases hi : loc.id with _ | i
    · simp [locMapStep, setsKey, hn, hi]
    · by_cases hiz : i = 0
      · simp [locMapStep, setsKey, hn, hi, hiz]
      · by_cases hik : k = toString i
        · simp [locMapStep, setsKey, hn, hi, hiz, hik, objSet]
        · simp [locMapStep, setsKey, hn, hi, hiz, hik, objSet]
  · rcases hi : loc.id with _ | i
    · by_cases hne : n = ""
      · simp [locMapStep, setsKey, hn, hi, hne]
      · by_cases hnk : k = jsToLower n
        · simp [locMapStep, setsKey, hn, hi, hne, hnk, objSet]
        · simp [locMapStep, setsKey, hn, hi, hne, hnk, objSet]
    · by_cases hiz : i = 0
      · by_cases hne : n = ""
        · simp [locMapStep, setsKey, hn, hi, hiz, hne]
        · by_cases hnk : k = jsToLower n
          · simp [locMapStep, setsKey, hn, hi, hiz, hne, hnk, objSet]
          · simp [locMapStep, setsKey, hn, hi, hiz, hne, hnk, objSet]
      · by_cases hne : n = ""
        · by_cases hik : k = toString i
          · simp [locMapStep, setsKey, hn, hi, hiz, hne, hik, objSet]
          · simp [locMapStep, setsKey, hn, hi, hiz, hne, hik, objSet]
        · by_cases hnk : k = jsToLower n
          · simp [locMapStep, setsKey, hn, hi, hiz, hne, hnk, objSet]
          · by_cases hik : k = toString i
            · simp [locMapStep, setsKey, hn, hi, hiz, hne, hnk, hik, objSet]
            · simp [locMapStep, setsKey, hn, hi, hiz, hne, hnk, hik, objSet]

theorem buildLocationMap_append (locations : List UpSite) (loc : UpSite) (k : String) :
    buildLocationMap (locations ++ [loc]) k =
      (if setsKey loc k then some loc else buildLocationMap locations k) := by
  unfold buildLocationMap
  rw [List.foldl_append, List.foldl_cons, List.foldl_nil, locMapStep_get]

theorem matchLoop_eq (m : String → Option UpSite) :
    ∀ stations : List LocalSite,
      (matchLoop m stations).matchedStations = stations.filterMap (matchOne m) ∧
      (matchLoop m stations).unmatchedStations =
        stations.filter (fun st => (matchOne m st).isNone)
  | [] => ⟨rfl, rfl⟩
  | st :: rest => by
    obtain ⟨h1, h2⟩ := matchLoop_eq m rest
    rcases hmo : matchOne m st with _ | e
    · exact ⟨by simp [matchLoop, hmo, List.filterMap_cons, h1],
        by simp [matchLoop, hmo, List.filter_cons, h2]⟩
    · exact ⟨by simp [matchLoop, hmo, List.filterMap_cons, h1],
        by simp [matchLoop, hmo, List.filter_cons, h2]⟩

/-- C5 fails on the code as to the tie-break: the map-building loop assigns
`map[key] = location` for each upstream site in order, so a LATER
candidate with the same key overwrites an earlier one — the last matching
candidate wins, not the first.  Two upstream sites named "Dup" (payloads 1
and 2): the local site "dup" is matched to the second. -/
theorem c5_counterexample :
    (matchStations [⟨1, none, some "dup"⟩]
        [⟨none, some "Dup", 1⟩, ⟨none, some "Dup", 2⟩]).matchedStations
      = [⟨⟨1, none, some "dup"⟩, ⟨none, some "Dup", 2⟩, "name"⟩] ∧
    (⟨none, some "Dup", 2⟩ : UpSite) ≠ ⟨none, some "Dup", 1⟩ ∧
    buildLocationMap [⟨none, some "Dup", 1⟩, ⟨none, some "Dup", 2⟩] "dup"
      = some ⟨none, some "Dup", 2⟩ :=
  ⟨by decide, by decide, by decide⟩

/-- C5 (amended): the Site Matcher builds its lookup keyed by the external
id's decimal string and by the lower-cased upstream name (JavaScript
truthiness skips id 0 and empty names); writing the map is last-wins, so
when several upstream candidates share an id key or a lower-cased name
key, the LAST matching candidate in upstream order wins.  Each local site
is classified independently: an id match is attempted first, a missed or
untruthy id falls through to the name match, and a site with neither match
is unmatched. -/
theorem c5_matcher_last_wins (stations : List LocalSite) (locations : List UpSite)
    (loc : UpSite) (k : String) :
    (matchStations stations locations).matchedStations
        = stations.filterMap (matchOne (buildLocationMap locations)) ∧
    (matchStations stations locations).unmatchedStations
        = stations.filter (fun st => (matchOne (buildLocationMap locations) st).isNone) ∧
    buildLocationMap (locations ++ [loc]) k
        = (if setsKey loc k then some loc else buildLocationMap locations k) ∧
    (∀ (st : LocalSite) (i : ℕ) (l2 : UpSite), st.id = some i → i ≠ 0 →
      buildLocationMap locations (toString i) = some l2 →
      matchOne (buildLocationMap locations) st = some ⟨st, l2, "id"⟩) ∧
    (∀ (st : LocalSite) (i : ℕ), st.id = some i → i ≠ 0 →
      buildLocationMap locations (toString i) = none →
      matchOne (buildLocationMap locations) st
        = matchOneByName (buildLocationMap locations) st) ∧
    (∀ st : LocalSite, st.id = none →
      matchOne (buildLocationMap locations) st
        = matchOneByName (buildLocationMap locations) st) ∧
    (∀ (st : LocalSite) (n : String) (l2 : UpSite), st.name = some n → n ≠ "" →
      buildLocationMap locations (jsToLower n) = some l2 →
      matchOneByName (buildLocationMap locations) st = some ⟨st, l2, "name"⟩) := by
  refine ⟨(matchLoop_eq (buildLocationMap locations) stations).1,
    (matchLoop_eq (buildLocationMap locations) stations).2,
    buildLocationMap_append locations loc k, ?_, ?_, ?_, ?_⟩
  · intro st i l2 hi hiz hm
    simp [matchOne, hi, hiz, hm]
  · intro st i hi hiz hm
    simp [matchOne, hi, hiz, hm]
  · intro st hi
    simp [matchOne, hi]
  · intro st n l2 hn hne hm
    simp [matchOneByName, hn, hne, hm]

theorem c5_matcher_last_wins_witness :
    (matchStations [⟨1, none, some "alpha"⟩] [⟨some 4, some "Alpha", 1⟩]).matchedStations
        = ([⟨1, none, some "alpha"⟩] : List LocalSite).filterMap
            (matchOne (buildLocationMap [⟨some 4, some "Alpha", 1⟩])) ∧
    (matchStations [⟨1, none, some "alpha"⟩] [⟨some 4, some "Alpha", 1⟩]).unmatchedStations
        = ([⟨1, none, some "alpha"⟩] : List LocalSite).filter
            (fun st => (matchOne (buildLocationMap [⟨some 4, some "Alpha", 1⟩]) st).isNone) ∧
    buildLocationMap ([⟨some 4, some "Alpha", 1⟩] ++ [⟨some 4, some "Beta", 2⟩]) "4"
        = (if setsKey ⟨some 4, some "Beta", 2⟩ "4" then some ⟨some 4, some "Beta", 2⟩
           else buildLocationMap [⟨some 4, some "Alpha", 1⟩] "4") ∧
    (∀ (st : LocalSite) (i : ℕ) (l2 : UpSite), st.id = some i → i ≠ 0 →
      buildLocationMap [⟨some 4, some "Alpha", 1⟩] (toString i) = some l2 →
      matchOne (buildLocationMap [⟨some 4, some "Alpha", 1⟩]) st = some ⟨st, l2, "id"⟩) ∧
    (∀ (st : LocalSite) (i : ℕ), st.id = some i → i ≠ 0 →
      buildLocationMap [⟨some 4, some "Alpha", 1⟩] (toString i) = none →
      matchOne (buildLocationMap [⟨some 4, some "Alpha", 1⟩]) st
        = matchOneByName (buildLocationMap [⟨some 4, some "Alpha", 1⟩]) st) ∧
    (∀ st : LocalSite, st.id = none →
      matchOne (buildLocationMap [⟨some 4, some "Alpha", 1⟩]) st
        = matchOneByName (buildLocationMap [⟨some 4, some "Alpha", 1⟩]) st) ∧
    (∀ (st : LocalSite) (n : String) (l2 : UpSite), st.name = some n → n ≠ "" →
      buildLocationMap [⟨some 4, some "Alpha", 1⟩] (jsToLower n) = some l2 →
      matchOneByName (buildLocationMap [⟨some 4, some "Alpha", 1⟩]) st
        = some ⟨st, l2, "name"⟩) :=
  c5_matcher_last_wins [⟨1, none, some "alpha"⟩] [⟨some 4, some "Alpha", 1⟩]
    ⟨some 4, some "Beta", 2⟩ "4"

end AirSync
